import Mathlib

/-!
Shallow embedding of
`src/packages/dmn-js-decision-table/lib/features/cell-selection/CellSelection.js`.

The module is a cell selection controller for a decision-table grid.  Its
mutable state is the single variable `lastSelection` (a JS value: `null`
initially, later the `data-element-id` attribute value of the selected
element).  All side effects are event-bus firings (`eventBus.fire`) and
calls into the external selection service (`selection.select` /
`selection.deselect`).  We embed the state as an explicit `JSVal`
parameter/result and the side effects as explicit lists, in emission order.
-/

/-- JS values that flow through the module: `null`, `undefined`, or a
string (attribute values, element ids, coordinate components). -/
inductive JSVal where
  | null
  | undefined
  | str (s : String)
deriving DecidableEq, Repr

/-- JS ToBoolean on the values above: `null` and `undefined` are falsy,
a string is truthy iff non-empty.  Used for every `if (x)` in the source. -/
def truthy : JSVal → Bool
  | .null => false
  | .undefined => false
  | .str s => !s.isEmpty

/-- JS ToString coercion as it happens in template literals and `+`
concatenation: `null` → "null", `undefined` → "undefined". -/
def jsToString : JSVal → String
  | .null => "null"
  | .undefined => "undefined"
  | .str s => s

/-- A selection patch object `{selected?: bool, focussed?: bool}`; `none`
models an absent property. -/
structure Patch where
  selected : Option Bool
  focussed : Option Bool
deriving DecidableEq, Repr

/-- Payload of a bus event: either a bare patch (per-element
`selection.<id>.changed` events) or the `{elementId, selection}` object of
the global `cellSelection.changed` event. -/
inductive Payload where
  | patch (p : Patch)
  | cellSel (elementId : JSVal) (selection : Patch)
deriving DecidableEq, Repr

/-- One `eventBus.fire(name, payload)` call. -/
structure BusEvent where
  name : String
  payload : Payload
deriving DecidableEq, Repr

/-- One call into the external selection service. -/
inductive SelCall where
  | select (id : JSVal)
  | deselect
deriving DecidableEq, Repr

/-- `emit(elementId, newSelection)` from the source: fires the per-element
event `'selection.' + elementId + '.changed'` with the patch, then the
global `'cellSelection.changed'` event with `{elementId, selection}`. -/
def emit (elementId : JSVal) (newSelection : Patch) : List BusEvent :=
  [ { name := "selection." ++ jsToString elementId ++ ".changed",
      payload := .patch newSelection },
    { name := "cellSelection.changed",
      payload := .cellSel elementId newSelection } ]

/-- Result of `realSelect`: bus events fired (in order), selection-service
calls made (in order), and the new value of `lastSelection`. -/
structure RealSelectResult where
  events : List BusEvent
  calls : List SelCall
  lastSelection : JSVal
deriving DecidableEq, Repr

/-- `realSelect(elementId)` from the source (the second argument passed at
one call site is ignored by the function and hence not modelled):
if `lastSelection !== elementId` emit a `{selected:false, focussed:false}`
patch for the old `lastSelection`; set `lastSelection = elementId`; if
`elementId` is truthy emit `{selected:true, focussed:true}` for it and call
`selection.select(elementId)`, otherwise call `selection.deselect()`. -/
def realSelect (lastSelection elementId : JSVal) : RealSelectResult :=
  let deselEvents :=
    if lastSelection != elementId then
      emit lastSelection { selected := some false, focussed := some false }
    else []
  let selEvents :=
    if truthy elementId then
      emit elementId { selected := some true, focussed := some true }
    else []
  let calls :=
    if truthy elementId then [SelCall.select elementId] else [SelCall.deselect]
  { events := deselEvents ++ selEvents, calls := calls,
    lastSelection := elementId }

/-- `isCellSelected()` from the source: `return !!lastSelection`. -/
def isCellSelected (lastSelection : JSVal) : Bool :=
  !(!(truthy lastSelection))

example :
    (realSelect JSVal.null (JSVal.str "a")).events =
      emit JSVal.null { selected := some false, focussed := some false } ++
      emit (JSVal.str "a") { selected := some true, focussed := some true } := by
  decide

example : (realSelect (JSVal.str "a") (JSVal.str "a")).events =
    emit (JSVal.str "a") { selected := some true, focussed := some true } := by
  decide

/-! ## DOM model

Elements are modelled by their attributes and CSS classes; a document (and
the container) is a list of elements in document order, so that
`querySelector` (min-dom `query`) is "first match in the list". -/

/-- A DOM element, reduced to what the module inspects: its attributes and
its class list. -/
structure Elem where
  attrs : List (String × String)
  classes : List String
deriving DecidableEq, Repr

/-- `el.getAttribute(name)`: the attribute value if present (possibly the
empty string), JS `null` otherwise. -/
def getAttribute (el : Elem) (name : String) : JSVal :=
  match el.attrs.find? (fun p => p.1 == name) with
  | some p => .str p.2
  | none => .null

/-- `getElementId(el)` from the source: `el.getAttribute('data-element-id')`. -/
def getElementId (el : Elem) : JSVal :=
  getAttribute el "data-element-id"

/-- min-dom `query('[attrName="value"]', elems)`: first element of `elems`
whose attribute `attrName` equals `value` exactly, or `none`. -/
def queryAttr (attrName value : String) (elems : List Elem) : Option Elem :=
  elems.find? (fun el => getAttribute el attrName == JSVal.str value)

/-- The DOM context of an instantiated controller: the whole document and
the controller's container (a sub-collection of it). -/
structure Env where
  document : List Elem
  container : List Elem
deriving Repr

/-- `getElement(id, container)` from the source:
`query('[data-element-id="id"]', container)`; min-dom falls back to the
whole `document` when `container` is undefined, which is what happens at
the one call site inside `selectCell` (it passes no second argument). -/
def getElement (doc : List Elem) (id : String)
    (container : Option (List Elem)) : Option Elem :=
  queryAttr "data-element-id" id (container.getD doc)

/-- The `{row, col}` object produced by `getCoordinates`: `row` is the
substring before the first `:` and `col` the substring between the first
and second `:` (JS array destructuring leaves `col` undefined when the
attribute has no `:`). -/
structure Coords where
  row : String
  col : JSVal
deriving DecidableEq, Repr

/-- JS `String.prototype.split(':')` on the character list of a string:
always returns at least one (possibly empty) part. -/
def splitColon : List Char → List (List Char)
  | [] => [[]]
  | c :: rest =>
    let r := splitColon rest
    if c == ':' then [] :: r
    else
      match r with
      | [] => [[c]]
      | p :: ps => (c :: p) :: ps

/-- `getCoordinates(el)` from the source: read `data-coords`; return `null`
when the attribute is absent or falsy (empty); otherwise split on `:` and
destructure into `{row, col}`. -/
def getCoordinates (el : Elem) : Option Coords :=
  match getAttribute el "data-coords" with
  | JSVal.null => none
  | JSVal.undefined => none
  | JSVal.str s =>
    if s.isEmpty then none
    else
      let parts := splitColon s.toList
      let col := match parts.get? 1 with
        | some c => JSVal.str (String.mk c)
        | none => JSVal.undefined
      some { row := String.mk (parts.headD []), col := col }

/-- `parseInt(s, 10)`: skip leading whitespace, read an optional sign and a
longest prefix of decimal digits; `none` models `NaN` (no digits found). -/
def parseInt10 (s : String) : Option Int :=
  let cs := s.toList.dropWhile (fun c =>
    c == ' ' || c == '\t' || c == '\n' || c == '\r')
  let signAndRest : Int × List Char :=
    match cs with
    | '-' :: rest => (-1, rest)
    | '+' :: rest => (1, rest)
    | _ => (1, cs)
  let ds := signAndRest.2.takeWhile Char.isDigit
  if ds.isEmpty then none
  else some (signAndRest.1 *
    (ds.foldl (fun acc c => acc * 10 + (c.toNat - '0'.toNat)) 0 : Nat))

/-- JS ToString of the number held in `coords.row` after arithmetic:
an integer prints as in Lean, `NaN` prints as "NaN". -/
def jsNumToString : Option Int → String
  | none => "NaN"
  | some i => toString i

/-- `getElementByCoords(coords, container)` from the source:
`query('[data-coords="row:col"]', container)` with the coordinate string
built by template-literal coercion of `row` (a JS number) and `col`. -/
def getElementByCoords (row : Option Int) (col : JSVal)
    (container : List Elem) : Option Elem :=
  queryAttr "data-coords" (jsNumToString row ++ ":" ++ jsToString col)
    container

example : parseInt10 "1" = some 1 := by decide
example : parseInt10 "-2" = some (-2) := by decide
example : parseInt10 "x" = none := by decide
example :
    getCoordinates { attrs := [("data-coords", "1:1")], classes := [] } =
      some { row := "1", col := JSVal.str "1" } := by decide

/-! ## selectCell and the interaction handlers -/

/-- An exception propagating out of `selectCell`: either the explicitly
thrown `Error` for a bad direction, or the `TypeError` raised by
dereferencing `null` (`selectionEl.getAttribute` when `getElement` found
nothing). -/
inductive JSError where
  | thrown (msg : String)
  | typeError
deriving DecidableEq, Repr

/-- Bus events plus selection-service calls produced by one handler or API
call, each in emission order. -/
structure Effects where
  events : List BusEvent
  calls : List SelCall
deriving DecidableEq, Repr

/-- The empty effect: nothing fired, nothing called. -/
def noEffects : Effects := { events := [], calls := [] }

/-- `this.selectCell = function(direction) {...}` from the source, as a
function of the DOM context and the current `lastSelection`, returning
either an exception or the effects together with the new `lastSelection`.
Guard order is the source's: falsy `lastSelection` returns first, then an
invalid direction throws, then `getElement(lastSelection)` (no container
argument, hence a whole-document query) feeds `getCoordinates`, which
dereferences `null` when the element is missing. -/
def selectCell (env : Env) (lastSelection : JSVal) (direction : String) :
    Except JSError (Effects × JSVal) :=
  if !(truthy lastSelection) then .ok (noEffects, lastSelection)
  else if direction != "above" && direction != "below" then
    .error (.thrown "direction must be any of \x7b above, below \x7d")
  else
    match getElement env.document (jsToString lastSelection) none with
    | none => .error .typeError
    | some selectionEl =>
      match getCoordinates selectionEl with
      | none => .ok (noEffects, lastSelection)
      | some coords =>
        let rowIndex := parseInt10 coords.row
        let nextRowIndex :=
          if direction == "above" then rowIndex.map (fun i => i - 1)
          else rowIndex.map (fun i => i + 1)
        match getElementByCoords nextRowIndex coords.col env.container with
        | none => .ok (noEffects, lastSelection)
        | some nextEl =>
          let nextElId := getElementId nextEl
          if truthy nextElId then
            let r := realSelect lastSelection nextElId
            .ok ({ events := r.events, calls := r.calls }, r.lastSelection)
          else .ok (noEffects, lastSelection)

/-- min-dom `closest(target, '.cls', true)` over the target's ancestor
chain (the target itself first): first element carrying the class. -/
def closestClass (cls : String) (chain : List Elem) : Option Elem :=
  chain.find? (fun el => el.classes.contains cls)

/-- min-dom `closest(target, '[data-element-id]', true)`: first element of
the ancestor chain on which the attribute is present (empty value
included). -/
def closestWithElementId (chain : List Elem) : Option Elem :=
  chain.find? (fun el => getAttribute el "data-element-id" != JSVal.null)

/-- The `click(event)` handler from the source: ignore clicks inside a
`.no-deselect` region; otherwise resolve the nearest `[data-element-id]`
ancestor, take its id (JS `null` when there is none: `selectionTarget &&
getElementId(selectionTarget)`), and `realSelect` it. -/
def click (chain : List Elem) (lastSelection : JSVal) : Effects × JSVal :=
  if (closestClass "no-deselect" chain).isSome then
    (noEffects, lastSelection)
  else
    let selectionTarget := closestWithElementId chain
    let elementId :=
      match selectionTarget with
      | none => JSVal.null
      | some el => getElementId el
    let r := realSelect lastSelection elementId
    ({ events := r.events, calls := r.calls }, r.lastSelection)

/-- The `focus(event)` handler from the source: `realSelect` the delegate
target's element id. -/
def focus (delegateTarget : Elem) (lastSelection : JSVal) :
    Effects × JSVal :=
  let r := realSelect lastSelection (getElementId delegateTarget)
  ({ events := r.events, calls := r.calls }, r.lastSelection)

/-- The `unfocus(event)` handler from the source: emit `{focussed: false}`
for the delegate target's element id, nothing else. -/
def unfocus (delegateTarget : Elem) (lastSelection : JSVal) :
    Effects × JSVal :=
  ({ events := emit (getElementId delegateTarget)
        { selected := none, focussed := some false },
     calls := [] },
   lastSelection)

/-! ## DOM listener bindings and teardown -/

/-- The three DOM listeners the constructor installs on the container:
`event.bind(container, 'click', click)`,
`delegate.bind(container, ELEMENT_SELECTOR, 'focusin', focus)` and
`delegate.bind(container, ELEMENT_SELECTOR, 'focusout', unfocus)`. -/
inductive DomBinding where
  | clickBinding
  | focusinBinding
  | focusoutBinding
deriving DecidableEq, Repr

/-- The bindings installed at construction time. -/
def initialBindings : List DomBinding :=
  [.clickBinding, .focusinBinding, .focusoutBinding]

/-- `event.unbind` / `delegate.unbind`: remove a listener from the
binding list. -/
def unbindDom (b : DomBinding) (bs : List DomBinding) : List DomBinding :=
  bs.filter (fun x => x != b)

/-- The `eventBus.on('table.destroy', ...)` handler from the source:
unbind the click, focusin and focusout listeners. -/
def tableDestroy (bs : List DomBinding) : List DomBinding :=
  unbindDom .focusoutBinding (unbindDom .focusinBinding
    (unbindDom .clickBinding bs))

/-- A raw DOM interaction reaching the container: a click (with the
target's ancestor chain) or a focusin/focusout whose delegate target
matches `[data-element-id]`. -/
inductive Interaction where
  | clickOn (chain : List Elem)
  | focusinOn (delegateTarget : Elem)
  | focusoutOn (delegateTarget : Elem)
deriving Repr

/-- Dispatch of a DOM interaction: the corresponding handler runs iff its
listener is still bound; an unbound listener means no effects and no state
change. -/
def dispatch (bs : List DomBinding) (i : Interaction)
    (lastSelection : JSVal) : Effects × JSVal :=
  match i with
  | .clickOn chain =>
    if bs.contains .clickBinding then click chain lastSelection
    else (noEffects, lastSelection)
  | .focusinOn t =>
    if bs.contains .focusinBinding then focus t lastSelection
    else (noEffects, lastSelection)
  | .focusoutOn t =>
    if bs.contains .focusoutBinding then unfocus t lastSelection
    else (noEffects, lastSelection)

example : tableDestroy initialBindings = [] := by decide

/-! ## Event classification helpers -/

/-- A per-element event carrying a `{selected: true}` patch, i.e. the
trace of one select-patch emission (`emit(id, {selected:true, ...})`
produces exactly one such event). -/
def isSelectPatchEvent (e : BusEvent) : Bool :=
  match e.payload with
  | .patch p => p.selected == some true
  | .cellSel _ _ => false

/-- An event whose patch carries `{selected: false}` (a deselect-patch), in
either the per-element or the global payload. -/
def isDeselectPatchEvent (e : BusEvent) : Bool :=
  match e.payload with
  | .patch p => p.selected == some false
  | .cellSel _ p => p.selected == some false

/-! ## Claim theorems -/

/-- C1, counterexample: with `lastSelection = "a"`, calling
`realSelect("a")` again re-emits the select-patch for "a" (its event list
is non-empty), so the two successive calls `realSelect("a")` starting from
`null` produce two select-patch emissions in total, not one. -/
theorem C1_counterexample :
    (realSelect (JSVal.str "a") (JSVal.str "a")).events ≠ [] ∧
    List.countP isSelectPatchEvent
      ((realSelect JSVal.null (JSVal.str "a")).events ++
        (realSelect (JSVal.str "a") (JSVal.str "a")).events) = 2 := by
  decide

/-- C1, amended: calling `realSelect(x)` twice in a row leaves
`lastSelection` unchanged and the second call emits no deselect-patch, but
whenever `x` is truthy the second call re-emits the select-patch for `x`
(and repeats the selection-service call), so there are two select-patch
emissions in total, not one. -/
theorem C1_amended_second_call (st x : JSVal) :
    (realSelect (realSelect st x).lastSelection x).lastSelection =
      (realSelect st x).lastSelection ∧
    List.countP isDeselectPatchEvent
      (realSelect (realSelect st x).lastSelection x).events = 0 ∧
    (realSelect (realSelect st x).lastSelection x).events =
      (if truthy x then
        emit x { selected := some true, focussed := some true }
      else []) ∧
    (realSelect (realSelect st x).lastSelection x).calls =
      (realSelect st x).calls := by
  refine ⟨rfl, ?_, ?_, rfl⟩
  · simp only [realSelect, emit, bne_self_eq_false, if_false, Bool.false_eq_true,
      List.nil_append]
    cases truthy x <;> simp [List.countP, List.countP.go, isDeselectPatchEvent]
  · simp only [realSelect, bne_self_eq_false, Bool.false_eq_true, if_false,
      List.nil_append]

/-- C2, counterexample: with nothing selected (`lastSelection = null`),
`selectCell("left")` does not throw: the falsy-selection guard returns
first, before the direction is validated. -/
theorem C2_counterexample :
    selectCell { document := [], container := [] } JSVal.null "left" =
      Except.ok (noEffects, JSVal.null) := rfl

/-- C2, amended: when a cell is currently selected (`lastSelection`
truthy), `selectCell(d)` with `d` neither "above" nor "below" throws the
module's one explicit `Error`; when nothing is selected, `selectCell`
returns silently for every direction string. -/
theorem C2_amended_throw_requires_selection :
    (∀ env st d, truthy st = true → d ≠ "above" → d ≠ "below" →
      selectCell env st d =
        .error (.thrown "direction must be any of \x7b above, below \x7d")) ∧
    (∀ env st d, truthy st = false →
      selectCell env st d = .ok (noEffects, st)) := by
  constructor
  · intro env st d h1 h2 h3
    simp [selectCell, h1, h2, h3]
  · intro env st d h1
    simp [selectCell, h1]

/-- C2, witness: with "a" selected, `selectCell("left")` throws. -/
theorem C2_witness :
    selectCell { document := [], container := [] } (JSVal.str "a") "left" =
      .error (.thrown "direction must be any of \x7b above, below \x7d") :=
  C2_amended_throw_requires_selection.1
    { document := [], container := [] } (JSVal.str "a") "left"
    (by decide) (by decide) (by decide)

/-- C3, counterexample: with "a" selected but no element of id "a" in the
document, `selectCell("above")` — a valid direction — raises a
`TypeError` instead of returning silently, so `selectCell` does not throw
only for invalid direction strings. -/
theorem C3_counterexample :
    selectCell
      { document := [{ attrs := [("data-element-id", "b")], classes := [] }],
        container := [] }
      (JSVal.str "a") "above" = .error JSError.typeError := rfl

/-- C3, amended: the three enumerated failure paths are silent no-ops that
emit no bus event and leave `lastSelection` unchanged — no current
selection (for any direction string, in particular `selectCell("above")`
with nothing selected), selected element without parseable coordinates,
and no element at the target coordinate; but a selected element missing
from the document additionally raises a `TypeError`, so the invalid
direction `Error` is not the only way `selectCell` can throw. -/
theorem C3_amended_silent_paths :
    (∀ env st d, truthy st = false →
      selectCell env st d = .ok (noEffects, st)) ∧
    (∀ env st d el, truthy st = true → (d = "above" ∨ d = "below") →
      getElement env.document (jsToString st) none = some el →
      getCoordinates el = none →
      selectCell env st d = .ok (noEffects, st)) ∧
    (∀ env st d el c, truthy st = true → (d = "above" ∨ d = "below") →
      getElement env.document (jsToString st) none = some el →
      getCoordinates el = some c →
      getElementByCoords
        (if d == "above" then (parseInt10 c.row).map (fun i => i - 1)
         else (parseInt10 c.row).map (fun i => i + 1))
        c.col env.container = none →
      selectCell env st d = .ok (noEffects, st)) := by
  refine ⟨?_, ?_, ?_⟩
  · intro env st d h1
    simp [selectCell, h1]
  · intro env st d el h1 hd h2 h3
    rcases hd with rfl | rfl <;> simp [selectCell, h1, h2, h3]
  · intro env st d el c h1 hd h2 h3 h4
    rcases hd with rfl | rfl <;> simp at h4 <;>
      simp [selectCell, h1, h2, h3, h4]

/-- C3, witness: `selectCell("above")` with nothing selected is silent. -/
theorem C3_witness :
    selectCell { document := [], container := [] } JSVal.null "above" =
      .ok (noEffects, JSVal.null) :=
  C3_amended_silent_paths.1 { document := [], container := [] }
    JSVal.null "above" (by decide)

/-- C4, theorem: when the selected element's coordinate attribute parses
as `(row, col)` with numeric row `r`, `selectCell` looks up the container
element at coordinate string `(r - 1) ++ ":" ++ col` for "above" and
`(r + 1) ++ ":" ++ col` for "below" — the column component unchanged —
and `realSelect`s its id. -/
theorem C4_row_shift (env : Env) (st : JSVal) (d : String)
    (el nextEl : Elem) (c : Coords) (r : Int)
    (h1 : truthy st = true) (hd : d = "above" ∨ d = "below")
    (h2 : getElement env.document (jsToString st) none = some el)
    (h3 : getCoordinates el = some c)
    (h4 : parseInt10 c.row = some r)
    (h5 : getElementByCoords (some (if d = "above" then r - 1 else r + 1))
        c.col env.container = some nextEl)
    (h6 : truthy (getElementId nextEl) = true) :
    selectCell env st d =
      .ok ({ events := (realSelect st (getElementId nextEl)).events,
             calls := (realSelect st (getElementId nextEl)).calls },
           getElementId nextEl) := by
  rcases hd with rfl | rfl <;> simp at h5 <;>
    simp [selectCell, h1, h2, h3, h4, h5, h6, realSelect]

/-- C4, witness: elements "a" at coords "1:1" and "b" at coords "0:1";
with "a" selected, `selectCell("above")` selects "b" (the element at
"0:1"): it deselects "a", select-patches "b", calls the selection service
with "b", and leaves `lastSelection = "b"`. -/
theorem C4_witness :
    selectCell
      { document :=
          [ { attrs := [("data-element-id", "a"), ("data-coords", "1:1")],
              classes := [] },
            { attrs := [("data-element-id", "b"), ("data-coords", "0:1")],
              classes := [] } ],
        container :=
          [ { attrs := [("data-element-id", "a"), ("data-coords", "1:1")],
              classes := [] },
            { attrs := [("data-element-id", "b"), ("data-coords", "0:1")],
              classes := [] } ] }
      (JSVal.str "a") "above" =
      .ok ({ events :=
               (realSelect (JSVal.str "a") (JSVal.str "b")).events,
             calls :=
               (realSelect (JSVal.str "a") (JSVal.str "b")).calls },
           JSVal.str "b") :=
  C4_row_shift _ (JSVal.str "a") "above"
    { attrs := [("data-element-id", "a"), ("data-coords", "1:1")],
      classes := [] }
    { attrs := [("data-element-id", "b"), ("data-coords", "0:1")],
      classes := [] }
    { row := "1", col := JSVal.str "1" } 1
    (by decide) (Or.inl rfl) (by decide) (by decide) (by decide)
    (by decide) (by decide)

/-- C5, theorem: whenever `realSelect(b)` runs with a current
`lastSelection = a` different from `b`, the deselect-patch
`{selected:false, focussed:false}` for `a` is emitted strictly before any
select-patch for `b` (which exists exactly when `b` is truthy — in
particular the deselect still fires when `b` is empty or null), and
`lastSelection` becomes `b`. -/
theorem C5_deselect_before_select (a b : JSVal) (h : a ≠ b) :
    (realSelect a b).events =
      emit a { selected := some false, focussed := some false } ++
      (if truthy b then
        emit b { selected := some true, focussed := some true }
      else []) ∧
    (realSelect a b).lastSelection = b := by
  refine ⟨?_, rfl⟩
  simp [realSelect, h]

/-- C5, witness: selecting the empty identifier with `lastSelection = "a"`
still emits the deselect-patch for "a" first (and, "" being falsy, no
select-patch follows). -/
theorem C5_witness :
    (realSelect (JSVal.str "a") (JSVal.str "")).events =
      emit (JSVal.str "a")
        { selected := some false, focussed := some false } ++
      (if truthy (JSVal.str "") then
        emit (JSVal.str "")
          { selected := some true, focussed := some true }
      else []) ∧
    (realSelect (JSVal.str "a") (JSVal.str "")).lastSelection =
      JSVal.str "" :=
  C5_deselect_before_select (JSVal.str "a") (JSVal.str "") (by decide)

/-- C6, theorem: every `emit(elementId, p)` fires exactly two bus events,
in order: the per-element `'selection.' + elementId + '.changed'` event
carrying the patch, then the global `'cellSelection.changed'` event
carrying `{elementId, selection: p}`; with a falsy `elementId` (JS null)
the per-element event still fires, under the malformed name
"selection.null.changed". -/
theorem C6_emit_two_events (elementId : JSVal) (p : Patch) :
    emit elementId p =
      [ { name := "selection." ++ jsToString elementId ++ ".changed",
          payload := .patch p },
        { name := "cellSelection.changed",
          payload := .cellSel elementId p } ] ∧
    (emit elementId p).length = 2 ∧
    emit JSVal.null p =
      [ { name := "selection.null.changed", payload := .patch p },
        { name := "cellSelection.changed",
          payload := .cellSel JSVal.null p } ] := by
  refine ⟨rfl, rfl, ?_⟩
  simp [emit, jsToString]

/-- C7, counterexample: after selecting the empty identifier (reachable
via `focus` on an element whose `data-element-id` attribute is present but
empty, or an externally driven `selection.changed` with an empty id),
`lastSelection` is the empty string — which is not JS `null` — yet
`isCellSelected()` returns false, so "true iff `lastSelection` is
non-null" fails. -/
theorem C7_counterexample :
    (realSelect (JSVal.str "a") (JSVal.str "")).lastSelection ≠
      JSVal.null ∧
    isCellSelected
      (realSelect (JSVal.str "a") (JSVal.str "")).lastSelection =
      false := by
  decide

/-- C7, amended: `isCellSelected()` returns `!!lastSelection`, i.e. true
iff `lastSelection` is truthy (non-null, non-undefined and non-empty): it
is false on the initial `null` state, true for every non-empty string
identifier, and after any `realSelect(x)` it reports exactly the
truthiness of `x` — so false after deselecting via a null or empty
identifier. -/
theorem C7_amended_truthy :
    (∀ st, isCellSelected st = truthy st) ∧
    isCellSelected JSVal.null = false ∧
    (∀ s : String, ¬s.isEmpty →
      isCellSelected (JSVal.str s) = true) ∧
    (∀ st x, isCellSelected (realSelect st x).lastSelection = truthy x)
    := by
  refine ⟨fun st => Bool.not_not _, rfl, ?_, fun st x => Bool.not_not _⟩
  intro s h
  simp [isCellSelected, truthy, h]

/-- C7, witness: a freshly selected non-empty identifier reports
selected. -/
theorem C7_witness : isCellSelected (JSVal.str "a") = true :=
  C7_amended_truthy.2.2.1 "a" (by decide)

/-- C8, theorem: the `table.destroy` handler unbinds all three DOM
listeners (the binding list becomes empty), after which dispatching any
click, focusin or focusout interaction on the container produces no bus
events, no selection-service calls and no change to `lastSelection`. -/
theorem C8_destroy_tears_down (i : Interaction) (st : JSVal) :
    tableDestroy initialBindings = [] ∧
    dispatch (tableDestroy initialBindings) i st = (noEffects, st) := by
  refine ⟨rfl, ?_⟩
  cases i <;> rfl

/-- C9, theorem: the `focusout` (`unfocus`) handler only emits the
`{focussed: false}` patch for the delegate target's element id: it fires
exactly the two events of that one emission (whose patch leaves `selected`
unset, so no deselect-patch is emitted), makes no selection-service call
(in particular never reaches `realSelect`), and leaves `lastSelection`
unchanged. -/
theorem C9_unfocus_frame (t : Elem) (st : JSVal) :
    (unfocus t st).2 = st ∧
    (unfocus t st).1.calls = [] ∧
    (unfocus t st).1.events =
      emit (getElementId t) { selected := none, focussed := some false } ∧
    List.countP isDeselectPatchEvent (unfocus t st).1.events = 0 := by
  exact ⟨rfl, rfl, rfl, rfl⟩

/-- C10, theorem: with a truthy `lastSelection` whose element is absent
from the whole document (`getElement` is called without its container
argument, so the query ranges over the document) and a valid direction,
`selectCell` does not no-op silently: `getElement` yields null and
`getCoordinates` dereferences it, raising a `TypeError`. -/
theorem C10_missing_element_type_error (env : Env) (st : JSVal)
    (d : String) (h1 : truthy st = true) (hd : d = "above" ∨ d = "below")
    (h2 : getElement env.document (jsToString st) none = none) :
    selectCell env st d = .error JSError.typeError := by
  rcases hd with rfl | rfl <;> simp [selectCell, h1, h2]

/-- C10, witness: "cell1" selected, empty document: `selectCell("below")`
raises the modelled `TypeError`. -/
theorem C10_witness :
    selectCell { document := [], container := [] } (JSVal.str "cell1")
      "below" = .error JSError.typeError :=
  C10_missing_element_type_error { document := [], container := [] }
    (JSVal.str "cell1") "below" (by decide) (Or.inr rfl) (by decide)
